import Mathlib

/-!
Verification of the mcp-shell process execution and supervision subsystem.

Shallow embedding of:
- the bounded writer (`limitedWriter.Write`, internal/shell/tools.go and
  internal/proc/proc.go, identical code in both files);
- the bounded synchronous executor (`shell.Run`, internal/shell/tools.go);
- the process registry operations (`proc.Spawn` / `Stdin` / `Wait` / `Kill`,
  internal/proc/proc.go);
- the outcome-classification tail of the admission middleware
  (`obs.Middleware`, internal/obs).

Conventions: Go byte strings that are compared or truncated byte-wise are
modelled as `List Nat` (one Nat per byte); Go `string` fields that are only
constructed and compared whole (error messages, commands, paths) are Lean
`String`, with Go `len(s)` rendered as `String.utf8ByteSize`.  Wall-clock
values (timestamps, durations) and OS effects (child behaviour, syscall
results) enter as explicit parameters, so every function is pure and
executable.  Machine `int` is modelled as `Int` (no overflow is reachable:
all arithmetic here is on small buffer lengths).
-/

/-- Sink state of a `limitedWriter`: the accumulation buffer (`bytes.Buffer`)
and the truncation flag the writer points at. -/
structure LW where
  buf : List Nat
  truncated : Bool
deriving DecidableEq, Repr

/-- One call of `limitedWriter.Write` (tools.go lines 345-360 / proc.go lines
115-130).  Returns the new sink state and the `int` the call reports to its
caller; the Go method never returns a non-nil error, so no error component is
modelled. -/
def lwWrite (limit : Int) (w : LW) (p : List Nat) : LW × Nat :=
  if limit ≤ 0 then
    ({ w with buf := w.buf ++ p }, p.length)
  else if limit - (w.buf.length : Int) ≤ 0 then
    ({ w with truncated := true }, p.length)
  else if (p.length : Int) ≤ limit - (w.buf.length : Int) then
    ({ w with buf := w.buf ++ p }, p.length)
  else
    ({ buf := w.buf ++ p.take (limit - (w.buf.length : Int)).toNat, truncated := true },
      p.length)

/-- Final sink state after a sequence of writes. -/
def lwRun (limit : Int) (w : LW) (chunks : List (List Nat)) : LW :=
  chunks.foldl (fun a p => (lwWrite limit a p).1) w

/-- The values returned to the caller by each write of the sequence. -/
def lwReturns (limit : Int) (w : LW) : List (List Nat) → List Nat
  | [] => []
  | p :: rest => (lwWrite limit w p).2 :: lwReturns limit (lwWrite limit w p).1 rest

/-- Total number of bytes the underlying stream produced. -/
def totalLen : List (List Nat) → Nat
  | [] => 0
  | c :: rest => c.length + totalLen rest

theorem lwWrite_snd (limit : Int) (w : LW) (p : List Nat) :
    (lwWrite limit w p).2 = p.length := by
  unfold lwWrite
  split
  · rfl
  · split
    · rfl
    · split
      · rfl
      · rfl

theorem lwReturns_eq (limit : Int) (chunks : List (List Nat)) :
    ∀ w : LW, lwReturns limit w chunks = chunks.map List.length := by
  induction chunks with
  | nil => intro w; rfl
  | cons p rest ih =>
    intro w
    simp only [lwReturns, List.map_cons, lwWrite_snd, ih]

theorem lwRun_cons (limit : Int) (w : LW) (p : List Nat) (rest : List (List Nat)) :
    lwRun limit w (p :: rest) = lwRun limit (lwWrite limit w p).1 rest := rfl

/-- One-step preservation of the writer invariant, for a positive cap `N` and
a nonempty chunk: the buffer always holds `min total N` bytes and the flag is
set exactly when the total has exceeded `N`. -/
theorem lwWrite_inv (N : Nat) (hN : 0 < N) (w : LW) (p : List Nat) (t : Nat)
    (hp : p ≠ [])
    (hb : w.buf.length = min t N)
    (ht : w.truncated = true ↔ N < t) :
    (lwWrite (N : Int) w p).1.buf.length = min (t + p.length) N ∧
      ((lwWrite (N : Int) w p).1.truncated = true ↔ N < t + p.length) := by
  have hlen : 0 < p.length := List.length_pos.mpr hp
  unfold lwWrite
  split
  · rename_i h
    exfalso
    omega
  · split
    · rename_i h1 h2
      constructor
      · simpa using by omega
      · simp only [true_iff]
        omega
    · split
      · rename_i h1 h2 h3
        constructor
        · simp only [List.length_append]
          omega
        · rw [ht]
          omega
      · rename_i h1 h2 h3
        constructor
        · simp only [List.length_append, List.length_take]
          omega
        · simp only [true_iff]
          omega

/-- Run-level invariant: starting from a state satisfying the invariant at
total `t`, a sequence of nonempty writes keeps it. -/
theorem lwRun_inv (N : Nat) (hN : 0 < N) :
    ∀ (chunks : List (List Nat)),
      chunks.all (fun c => !c.isEmpty) = true →
      ∀ (w : LW) (t : Nat),
        w.buf.length = min t N →
        (w.truncated = true ↔ N < t) →
        (lwRun (N : Int) w chunks).buf.length = min (t + totalLen chunks) N ∧
          ((lwRun (N : Int) w chunks).truncated = true ↔ N < t + totalLen chunks) := by
  intro chunks
  induction chunks with
  | nil =>
    intro _ w t hb ht
    constructor
    · simpa [lwRun, totalLen] using hb
    · simpa [lwRun, totalLen] using ht
  | cons p rest ih =>
    intro hall w t hb ht
    simp only [List.all_cons, Bool.and_eq_true, Bool.not_eq_true'] at hall
    have hp : p ≠ [] := by
      intro hcon
      rw [hcon] at hall
      simp at hall
    obtain ⟨hstep1, hstep2⟩ := lwWrite_inv N hN w p t hp hb ht
    have hrest := ih (by
        simp only [List.all_eq_true] at hall ⊢
        intro c hc
        exact hall.2 c hc)
      (lwWrite (N : Int) w p).1 (t + p.length) hstep1 hstep2
    rw [lwRun_cons]
    constructor
    · rw [hrest.1]
      simp only [totalLen]
      omega
    · rw [hrest.2]
      simp only [totalLen]
      omega

/-- Claim C1 (amended): for every byte limit N > 0 and every sequence of
nonempty writes, the bounded writer retains at most N bytes in its buffer,
every write call reports full success (returns the full input length, and the
Go method never returns an error), and the truncation flag is true iff the
underlying stream produced strictly more than N bytes in total.  (The
restriction to nonempty writes is forced: a zero-length write issued while
the buffer is already full also sets the flag, see the counterexample.) -/
theorem limitedWriter_bounded_success_truncation (limit : Int) (hl : 0 < limit)
    (chunks : List (List Nat))
    (hne : chunks.all (fun c => !c.isEmpty) = true) :
    ((lwRun limit ⟨[], false⟩ chunks).buf.length : Int) ≤ limit ∧
      lwReturns limit ⟨[], false⟩ chunks = chunks.map List.length ∧
      ((lwRun limit ⟨[], false⟩ chunks).truncated = true ↔
        limit < (totalLen chunks : Int)) := by
  obtain ⟨N, rfl⟩ : ∃ N : Nat, limit = (N : Int) :=
    ⟨limit.toNat, by omega⟩
  have hN : 0 < N := by exact_mod_cast hl
  have hinv := lwRun_inv N hN chunks hne ⟨[], false⟩ 0
    (by simp) (by simp)
  refine ⟨?_, lwReturns_eq _ _ _, ?_⟩
  · have := hinv.1
    simp only [Nat.zero_add] at this
    rw [this]
    exact_mod_cast Nat.min_le_right _ _
  · rw [hinv.2]
    omega

/-- Witness for the amended C1 theorem at limit 2 with writes [7] and [8,9]:
hypotheses hold and the conclusion evaluates (3 bytes produced, 2 retained,
truncated). -/
theorem limitedWriter_bounded_success_truncation_witness :
    (0 : Int) < 2 ∧
    ([[7], [8, 9]] : List (List Nat)).all (fun c => !c.isEmpty) = true ∧
    (((lwRun 2 ⟨[], false⟩ [[7], [8, 9]]).buf.length : Int) ≤ 2 ∧
      lwReturns 2 ⟨[], false⟩ [[7], [8, 9]] = ([[7], [8, 9]] : List (List Nat)).map List.length ∧
      ((lwRun 2 ⟨[], false⟩ [[7], [8, 9]]).truncated = true ↔
        (2 : Int) < (totalLen [[7], [8, 9]] : Int))) :=
  ⟨by decide, by decide,
    limitedWriter_bounded_success_truncation 2 (by decide) [[7], [8, 9]] (by decide)⟩

/-- Counterexample to C1 as stated: with N = 1 and the write sequence
[[0], []] (one byte, then a zero-length write), the stream produced exactly
1 byte — not strictly more — yet the truncation flag is set, refuting the
claimed "iff". -/
theorem limitedWriter_truncation_iff_counterexample :
    ¬(((lwRun 1 ⟨[], false⟩ [[0], []]).truncated = true) ↔
      (1 : Int) < (totalLen [[0], []] : Int)) := by
  decide

namespace shell

/-- Input of the bounded synchronous executor (`ExecRequest`,
internal/shell/tools.go).  `stdin` is byte-level (`[]byte(in.Stdin)` is
truncated byte-wise). -/
structure ExecRequest where
  cmd : String
  cwd : String := ""
  env : List (String × String) := []
  timeoutMs : Int := 0
  stdin : List Nat := []
  maxBytes : Int := 0
  dryRun : Bool := false
deriving DecidableEq, Repr

/-- Output of the executor (`ExecResponse`, internal/shell/tools.go). -/
structure ExecResponse where
  stdout : String := ""
  stderr : String := ""
  exitCode : Int := 0
  durationMs : Int := 0
  stdoutTruncated : Bool := false
  stderrTruncated : Bool := false
  error : String := ""
deriving DecidableEq, Repr

/-- The stdin cap (`DefaultMaxStdin = 1 << 20`). -/
def DefaultMaxStdin : Nat := 1 <<< 20

/-- Classification of the value `cmd.Run()` returns: nil, an `exec.ExitError`
carrying the child's exit code, or any other error (launch failure etc.). -/
inductive RunErr where
  | noErr : RunErr
  | exitErr : Int → RunErr
  | otherErr : RunErr
deriving DecidableEq, Repr

/-- What the OS and the child did during the execution branch, supplied as an
oracle: the `cmd.Run()` error class, whether the deadline context expired
(`ctx.Err() == context.DeadlineExceeded`), and the contents/truncation flags
the two bounded writers hold when `Run` returns.  The per-stream cap
(`in.MaxBytes` or `DefaultMaxIO`) acts through those writers and is folded
into this oracle. -/
structure ExecOutcome where
  runErr : RunErr
  ctxDeadline : Bool
  stdout : String
  stderr : String
  stdoutTrunc : Bool
  stderrTrunc : Bool
deriving DecidableEq, Repr

/-- Policy predicate (`allowed`, internal/shell/tools.go lines 181-200).  The
compiled regex patterns from SHELL_EXEC_ALLOW / SHELL_EXEC_DENY enter as
abstract matchers `String → Bool`; the branching over them is translated
exactly: with a nonempty allow list some allow pattern must match, and no
deny pattern may match. -/
def allowed (ap dp : List (String → Bool)) (cmd : String) : Bool :=
  (if 0 < ap.length then ap.any (fun re => re cmd) else true) &&
    dp.all (fun re => !re cmd)

/-- One audit record (the anonymous struct in `audit`, internal/shell/tools.go
lines 376-398), built from the request and the response exactly as the source
does; `len` on Go strings is the UTF-8 byte size. -/
structure AuditRec where
  ts : String
  tool : String
  cmd : String
  cwd : String
  exit : Int
  durationMs : Int
  bytesOut : Nat
  stdoutTruncated : Bool
  stderrTruncated : Bool
  timeoutMs : Int
deriving DecidableEq, Repr

/-- Construction of the audit record from `audit(in, out, cwd)`. -/
def auditRec (ts : String) (req : ExecRequest) (out : ExecResponse) (cwd : String) :
    AuditRec :=
  { ts := ts
    tool := "shell.exec"
    cmd := req.cmd
    cwd := cwd
    exit := out.exitCode
    durationMs := out.durationMs
    bytesOut := out.stdout.utf8ByteSize + out.stderr.utf8ByteSize
    stdoutTruncated := out.stdoutTruncated
    stderrTruncated := out.stderrTruncated
    timeoutMs := req.timeoutMs }

/-- Everything observable about one `Run` call: the response, whether the
execution branch was reached (a child spawn was attempted), the audit records
handed to the best-effort logger, whether the process group was SIGKILLed on
deadline expiry, and the bytes wired to the child's stdin. -/
structure RunResult where
  resp : ExecResponse
  attemptedSpawn : Bool
  audits : List AuditRec
  groupKilled : Bool
  stdinSent : List Nat
deriving DecidableEq, Repr

/-- The bounded synchronous executor (`Run`, internal/shell/tools.go lines
222-335).  Pure parameters stand for the ambient state: `clean` is
`filepath.Clean`, `ws` is `os.Getenv("WORKSPACE")`, `ap`/`dp` the compiled
allow/deny patterns, `ts`/`dur` the wall-clock timestamp and measured
duration, `oc` the OS outcome of the execution branch.  Note the source reads
`time.Now()` only after the empty-command check, so that branch reports
duration 0 and emits no audit record. -/
def Run (clean : String → String) (ws : String) (ap dp : List (String → Bool))
    (ts : String) (dur : Int) (oc : ExecOutcome) (req : ExecRequest) : RunResult :=
  if req.cmd = "" then
    { resp := { exitCode := 127, error := "cmd is required" }
      attemptedSpawn := false, audits := [], groupKilled := false, stdinSent := [] }
  else if allowed ap dp req.cmd = false then
    let resp : ExecResponse :=
      { stderr := "command blocked by policy", exitCode := 126, durationMs := dur
        error := "command blocked" }
    { resp := resp, attemptedSpawn := false, audits := [auditRec ts req resp ""]
      groupKilled := false, stdinSent := [] }
  else if req.dryRun = true then
    let resp : ExecResponse :=
      { stdout := "[dry_run] would execute: " ++ req.cmd, exitCode := 0
        durationMs := dur }
    { resp := resp, attemptedSpawn := false, audits := [auditRec ts req resp ""]
      groupKilled := false, stdinSent := [] }
  else
    let cwdR := if req.cwd ≠ "" then clean req.cwd else ws
    let stdinSent := if req.stdin ≠ [] then req.stdin.take DefaultMaxStdin else []
    let ek : Int × Bool :=
      match oc.runErr with
      | .noErr => (0, false)
      | .exitErr c => if oc.ctxDeadline = true then (124, true) else (c, false)
      | .otherErr => if oc.ctxDeadline = true then (124, true) else (1, false)
    let stderrPatched :=
      if ek.1 = 124 ∧ oc.stderr = "" then "timed out" else oc.stderr
    let resp : ExecResponse :=
      { stdout := oc.stdout, stderr := stderrPatched, exitCode := ek.1
        durationMs := dur, stdoutTruncated := oc.stdoutTrunc
        stderrTruncated := oc.stderrTrunc }
    { resp := resp, attemptedSpawn := true, audits := [auditRec ts req resp cwdR]
      groupKilled := ek.2, stdinSent := stdinSent }

/-- The working directory string the executor passes to `audit`: the empty
string on the policy-rejection and dry-run branches (the source calls
`audit(in, resp, "")` there), and the resolved directory on the execution
branch. -/
def auditCwd (clean : String → String) (ws : String) (ap dp : List (String → Bool))
    (req : ExecRequest) : String :=
  if allowed ap dp req.cmd = false then ""
  else if req.dryRun = true then ""
  else if req.cwd ≠ "" then clean req.cwd else ws

end shell

/-- Claim C3: a command rejected by the allow/deny policy predicate yields
exit code 126 with the explanatory error, no process is spawned, and the
check precedes the dry-run short-circuit — the request here is arbitrary, in
particular it may have dry_run set, and still gets 126. -/
theorem shellRun_policy_rejection (clean : String → String) (ws : String)
    (ap dp : List (String → Bool)) (ts : String) (dur : Int)
    (oc : shell.ExecOutcome) (req : shell.ExecRequest)
    (hcmd : ¬req.cmd = "") (hal : shell.allowed ap dp req.cmd = false) :
    (shell.Run clean ws ap dp ts dur oc req).resp.exitCode = 126 ∧
    (shell.Run clean ws ap dp ts dur oc req).resp.error = "command blocked" ∧
    (shell.Run clean ws ap dp ts dur oc req).resp.stderr = "command blocked by policy" ∧
    (shell.Run clean ws ap dp ts dur oc req).attemptedSpawn = false := by
  unfold shell.Run
  rw [if_neg hcmd, if_pos hal]
  exact ⟨rfl, rfl, rfl, rfl⟩

/-- Witness for C3: the command "rm -rf /" is denied by a deny pattern while
dry_run is set, and the call still reports 126, not dry-run success. -/
theorem shellRun_policy_rejection_witness :
    (shell.Run id "" [] [fun s => s = "rm -rf /"] "t" 0
      ⟨.noErr, false, "", "", false, false⟩
      ⟨"rm -rf /", "", [], 0, [], 0, true⟩).resp.exitCode = 126 ∧
    (shell.Run id "" [] [fun s => s = "rm -rf /"] "t" 0
      ⟨.noErr, false, "", "", false, false⟩
      ⟨"rm -rf /", "", [], 0, [], 0, true⟩).resp.error = "command blocked" ∧
    (shell.Run id "" [] [fun s => s = "rm -rf /"] "t" 0
      ⟨.noErr, false, "", "", false, false⟩
      ⟨"rm -rf /", "", [], 0, [], 0, true⟩).resp.stderr = "command blocked by policy" ∧
    (shell.Run id "" [] [fun s => s = "rm -rf /"] "t" 0
      ⟨.noErr, false, "", "", false, false⟩
      ⟨"rm -rf /", "", [], 0, [], 0, true⟩).attemptedSpawn = false :=
  shellRun_policy_rejection id "" [] [fun s => s = "rm -rf /"] "t" 0
    ⟨.noErr, false, "", "", false, false⟩ ⟨"rm -rf /", "", [], 0, [], 0, true⟩
    (by decide) (by decide)

/-- Claim C4: an empty command yields exit code 127 with an explanatory error
and no spawn attempt; an allowed nonempty command with dry_run yields exit
code 0 with the synthesized "would execute" message as stdout and no spawn
attempt. -/
theorem shellRun_empty_and_dryrun :
    (∀ (clean : String → String) (ws : String) (ap dp : List (String → Bool))
        (ts : String) (dur : Int) (oc : shell.ExecOutcome) (req : shell.ExecRequest),
      req.cmd = "" →
        (shell.Run clean ws ap dp ts dur oc req).resp.exitCode = 127 ∧
        (shell.Run clean ws ap dp ts dur oc req).resp.error = "cmd is required" ∧
        (shell.Run clean ws ap dp ts dur oc req).attemptedSpawn = false) ∧
    (∀ (clean : String → String) (ws : String) (ap dp : List (String → Bool))
        (ts : String) (dur : Int) (oc : shell.ExecOutcome) (req : shell.ExecRequest),
      ¬req.cmd = "" → shell.allowed ap dp req.cmd = true → req.dryRun = true →
        (shell.Run clean ws ap dp ts dur oc req).resp.exitCode = 0 ∧
        (shell.Run clean ws ap dp ts dur oc req).resp.stdout =
          "[dry_run] would execute: " ++ req.cmd ∧
        (shell.Run clean ws ap dp ts dur oc req).attemptedSpawn = false) := by
  constructor
  · intro clean ws ap dp ts dur oc req hcmd
    unfold shell.Run
    rw [if_pos hcmd]
    exact ⟨rfl, rfl, rfl⟩
  · intro clean ws ap dp ts dur oc req hcmd hal hdry
    unfold shell.Run
    rw [if_neg hcmd, if_neg (by simp [hal]), if_pos hdry]
    exact ⟨rfl, rfl, rfl⟩

/-- Witness for C4: an empty command gives 127 and no spawn; the allowed
command "ls" with dry_run gives 0 and the synthesized message. -/
theorem shellRun_empty_and_dryrun_witness :
    ((shell.Run id "" [] [] "t" 0 ⟨.noErr, false, "", "", false, false⟩
        ⟨"", "", [], 0, [], 0, false⟩).resp.exitCode = 127 ∧
      (shell.Run id "" [] [] "t" 0 ⟨.noErr, false, "", "", false, false⟩
        ⟨"", "", [], 0, [], 0, false⟩).resp.error = "cmd is required" ∧
      (shell.Run id "" [] [] "t" 0 ⟨.noErr, false, "", "", false, false⟩
        ⟨"", "", [], 0, [], 0, false⟩).attemptedSpawn = false) ∧
    ((shell.Run id "" [] [] "t" 0 ⟨.noErr, false, "", "", false, false⟩
        ⟨"ls", "", [], 0, [], 0, true⟩).resp.exitCode = 0 ∧
      (shell.Run id "" [] [] "t" 0 ⟨.noErr, false, "", "", false, false⟩
        ⟨"ls", "", [], 0, [], 0, true⟩).resp.stdout =
          "[dry_run] would execute: " ++ "ls" ∧
      (shell.Run id "" [] [] "t" 0 ⟨.noErr, false, "", "", false, false⟩
        ⟨"ls", "", [], 0, [], 0, true⟩).attemptedSpawn = false) :=
  ⟨shellRun_empty_and_dryrun.1 id "" [] [] "t" 0
      ⟨.noErr, false, "", "", false, false⟩ ⟨"", "", [], 0, [], 0, false⟩ rfl,
    shellRun_empty_and_dryrun.2 id "" [] [] "t" 0
      ⟨.noErr, false, "", "", false, false⟩ ⟨"ls", "", [], 0, [], 0, true⟩
      (by decide) (by decide) rfl⟩

/-- Claim C9 (amended): every call to the executor emits exactly one audit
record — built by `auditRec` from the request and the returned response, so
carrying the timestamp, the tool identity "shell.exec", the command, the exit
code, the duration, the total bytes emitted and both truncation flags, with
the working-directory field holding the resolved directory on the execution
branch and the empty string on the policy-rejection and dry-run branches —
EXCEPT the empty-command validation failure, which emits no audit record at
all (the source returns before any `audit` call there). -/
theorem shellRun_audit_amended (clean : String → String) (ws : String)
    (ap dp : List (String → Bool)) (ts : String) (dur : Int)
    (oc : shell.ExecOutcome) (req : shell.ExecRequest) :
    (req.cmd = "" → (shell.Run clean ws ap dp ts dur oc req).audits = []) ∧
    (¬req.cmd = "" →
      (shell.Run clean ws ap dp ts dur oc req).audits =
        [shell.auditRec ts req (shell.Run clean ws ap dp ts dur oc req).resp
          (shell.auditCwd clean ws ap dp req)]) := by
  constructor
  · intro hcmd
    unfold shell.Run
    rw [if_pos hcmd]
  · intro hcmd
    by_cases hal : shell.allowed ap dp req.cmd = false
    · simp only [shell.Run, shell.auditCwd, if_neg hcmd, if_pos hal]
    · by_cases hdry : req.dryRun = true
      · simp only [shell.Run, shell.auditCwd, if_neg hcmd, if_neg hal, if_pos hdry]
      · simp only [shell.Run, shell.auditCwd, if_neg hcmd, if_neg hal, if_neg hdry]

/-- Witness for the amended C9 theorem: a policy-blocked call emits exactly
the one record built from its response with empty cwd. -/
theorem shellRun_audit_amended_witness :
    (shell.Run id "" [] [fun s => s = "x"] "t" 3 ⟨.noErr, false, "", "", false, false⟩
      ⟨"x", "", [], 9, [], 0, false⟩).audits =
      [shell.auditRec "t" ⟨"x", "", [], 9, [], 0, false⟩
        (shell.Run id "" [] [fun s => s = "x"] "t" 3 ⟨.noErr, false, "", "", false, false⟩
          ⟨"x", "", [], 9, [], 0, false⟩).resp
        (shell.auditCwd id "" [] [fun s => s = "x"] ⟨"x", "", [], 9, [], 0, false⟩)] :=
  (shellRun_audit_amended id "" [] [fun s => s = "x"] "t" 3
    ⟨.noErr, false, "", "", false, false⟩ ⟨"x", "", [], 9, [], 0, false⟩).2 (by decide)

/-- Counterexample to C9 as stated: the validation-failure branch (empty
command) emits zero audit records, not exactly one. -/
theorem shellRun_audit_counterexample :
    ¬((shell.Run id "" [] [] "t" 0 ⟨.noErr, false, "", "", false, false⟩
        ⟨"", "", [], 0, [], 0, false⟩).audits.length = 1) := by
  decide

namespace proc

/-- The registry's record of one supervised child (`process`,
internal/proc/proc.go lines 90-102).  The live `exec.Cmd` and stdin handles
act only through the operations and are not part of the pure state; the
output buffers and truncation flags hold whatever the copier goroutines have
produced at the moment a state is observed, and `exitCode` holds the value
the reaper recorded (read only on the completion branch of `Wait`). -/
structure ProcState where
  stdoutBuf : List Nat
  stderrBuf : List Nat
  stdoutTrunc : Bool
  stderrTrunc : Bool
  exitCode : Int
  cwd : String
  tty : Bool
deriving DecidableEq, Repr

/-- The pid-keyed process map (`processes`, guarded by `procMu`). -/
abbrev Registry := Nat → Option ProcState

/-- Map insertion (`processes[pid] = p`). -/
def regInsert (reg : Registry) (pid : Nat) (p : ProcState) : Registry :=
  fun n => if n = pid then some p else reg n

/-- Map deletion (`delete(processes, pid)`). -/
def regRemove (reg : Registry) (pid : Nat) : Registry :=
  fun n => if n = pid then none else reg n

/-- The stdin cap (`DefaultMaxStdin = 1 << 20`, proc.go line 23). -/
def DefaultMaxStdin : Nat := 1 <<< 20

/-- The per-stream capture cap (`DefaultMaxIO = 1 << 20`, proc.go line 22). -/
def maxIOCap : Int := ((1 <<< 20 : Nat) : Int)

structure SpawnRequest where
  cmd : String
  args : List String := []
  cwd : String := ""
  env : List (String × String) := []
  tty : Bool := false
deriving DecidableEq, Repr

structure SpawnResponse where
  pid : Nat := 0
  error : String := ""
deriving DecidableEq, Repr

structure StdinRequest where
  pid : Nat
  data : List Nat
deriving DecidableEq, Repr

structure StdinResponse where
  bytesWritten : Nat := 0
  error : String := ""
deriving DecidableEq, Repr

structure WaitRequest where
  pid : Nat
  timeoutMs : Int := 0
deriving DecidableEq, Repr

structure WaitResponse where
  exitCode : Int := 0
  stdout : List Nat := []
  stderr : List Nat := []
  truncated : Bool := false
  error : String := ""
deriving DecidableEq, Repr

structure KillRequest where
  pid : Nat
  signal : Int := 0
deriving DecidableEq, Repr

structure KillResponse where
  killed : Bool := false
  error : String := ""
deriving DecidableEq, Repr

/-- Result of the OS-level `p.stdin.Write(data)`: Go's `io.Writer` contract
makes a nil-error write report the full length of its argument, so the
success case carries no count; a failing write reports a partial count and
the error text. -/
inductive WriteOutcome where
  | ok : WriteOutcome
  | fail : Nat → String → WriteOutcome
deriving DecidableEq, Repr

/-- Exit code the background reaper records from `cmd.Wait()` (proc.go lines
213-226): nil error means 0, an `exec.ExitError` keeps the child's code, any
other error becomes 1 — the same classification the executor uses, so the
class is shared. -/
def reapExit : shell.RunErr → Int
  | .noErr => 0
  | .exitErr c => c
  | .otherErr => 1

/-- The `TrackedProcess` built by a successful `Spawn` (proc.go lines
160-207): in TTY mode one copier feeds the combined pseudo-terminal stream
through a bounded writer into the stdout buffer only, and the stderr buffer
and flag are the untouched zero values; in pipe mode each stream has its own
bounded writer.  `ttyOut` / `pipeOut` / `pipeErr` are the chunk sequences the
child's stream(s) deliver to `io.Copy`. -/
def spawnProc (clean : String → String) (ws : String) (req : SpawnRequest)
    (ttyOut pipeOut pipeErr : List (List Nat)) (reapErr : shell.RunErr) : ProcState :=
  let cwdR := if req.cwd ≠ "" then clean req.cwd else ws
  if req.tty = true then
    { stdoutBuf := (lwRun maxIOCap ⟨[], false⟩ ttyOut).buf
      stderrBuf := []
      stdoutTrunc := (lwRun maxIOCap ⟨[], false⟩ ttyOut).truncated
      stderrTrunc := false
      exitCode := reapExit reapErr
      cwd := cwdR
      tty := true }
  else
    { stdoutBuf := (lwRun maxIOCap ⟨[], false⟩ pipeOut).buf
      stderrBuf := (lwRun maxIOCap ⟨[], false⟩ pipeErr).buf
      stdoutTrunc := (lwRun maxIOCap ⟨[], false⟩ pipeOut).truncated
      stderrTrunc := (lwRun maxIOCap ⟨[], false⟩ pipeErr).truncated
      exitCode := reapExit reapErr
      cwd := cwdR
      tty := false }

structure SpawnResult where
  resp : SpawnResponse
  regOut : Registry

/-- `Spawn` (proc.go lines 132-237).  `fail` is the first error among pty
start / pipe creation / `cmd.Start()` (oracle), in which case nothing is
registered; on success the tracked process is registered under the OS pid. -/
def Spawn (reg : Registry) (req : SpawnRequest) (fail : Option String) (osPid : Nat)
    (clean : String → String) (ws : String)
    (ttyOut pipeOut pipeErr : List (List Nat)) (reapErr : shell.RunErr) : SpawnResult :=
  if req.cmd = "" then
    { resp := { error := "cmd is required" }, regOut := reg }
  else
    match fail with
    | some msg => { resp := { error := msg }, regOut := reg }
    | none =>
      { resp := { pid := osPid }
        regOut := regInsert reg osPid (spawnProc clean ws req ttyOut pipeOut pipeErr reapErr) }

structure StdinResult where
  resp : StdinResponse
  regOut : Registry
  sent : List Nat

/-- `Stdin` (proc.go lines 239-262): unknown pid is a structured error; a
known pid gets the payload capped at `DefaultMaxStdin` bytes, the remainder
silently dropped, before the capped bytes are handed to the child's stdin. -/
def Stdin (reg : Registry) (req : StdinRequest) (w : WriteOutcome) : StdinResult :=
  match reg req.pid with
  | none => { resp := { error := "unknown pid" }, regOut := reg, sent := [] }
  | some _ =>
    let capped :=
      if DefaultMaxStdin < req.data.length then req.data.take DefaultMaxStdin
      else req.data
    match w with
    | .ok => { resp := { bytesWritten := capped.length }, regOut := reg, sent := capped }
    | .fail n msg =>
      { resp := { bytesWritten := n, error := msg }, regOut := reg, sent := capped }

structure WaitResult where
  resp : WaitResponse
  regOut : Registry

/-- `Wait` (proc.go lines 264-301).  `completes` says whether the completion
channel fired before the (supplied or default) timeout — the outcome of the
`select`.  The timeout branch returns early with code 124, the "timeout"
error and the current partial buffers, leaving the map untouched; only the
completion branch deletes the entry. -/
def Wait (reg : Registry) (req : WaitRequest) (completes : Bool) : WaitResult :=
  match reg req.pid with
  | none => { resp := { exitCode := 1, error := "unknown pid" }, regOut := reg }
  | some p =>
    if completes = true then
      { resp := { exitCode := p.exitCode, stdout := p.stdoutBuf, stderr := p.stderrBuf
                  truncated := p.stdoutTrunc || p.stderrTrunc }
        regOut := regRemove reg req.pid }
    else
      { resp := { exitCode := 124, stdout := p.stdoutBuf, stderr := p.stderrBuf
                  truncated := p.stdoutTrunc || p.stderrTrunc, error := "timeout" }
        regOut := reg }

structure KillEvent where
  target : Int
  signal : Int
deriving DecidableEq, Repr

structure KillResult where
  resp : KillResponse
  regOut : Registry
  events : List KillEvent

/-- `Kill` (proc.go lines 303-326): unknown pid is a structured error (a
registered entry always has a live process handle, so the `p.cmd.Process ==
nil` disjunct cannot fire for tracked pids); otherwise the requested signal —
SIGTERM (15) when the request carries 0 — is sent to the negative pid, i.e.
the whole process group, and the map is never touched. -/
def Kill (reg : Registry) (req : KillRequest) (killErr : Option String) : KillResult :=
  match reg req.pid with
  | none => { resp := { error := "unknown pid" }, regOut := reg, events := [] }
  | some _ =>
    let sig : Int := if req.signal ≠ 0 then req.signal else 15
    match killErr with
    | some msg =>
      { resp := { error := msg }, regOut := reg
        events := [{ target := -(req.pid : Int), signal := sig }] }
    | none =>
      { resp := { killed := true }, regOut := reg
        events := [{ target := -(req.pid : Int), signal := sig }] }

end proc

/-- Claim C2: a wait whose timeout elapses first returns exit code 124 with
the "timeout" error and the current partial captured output, and leaves the
registry entry untouched — the process stays tracked and killable, a later
wait can still observe completion, and the entry is removed only on the
completion branch. -/
theorem procWait_timeout_nondestructive (reg : proc.Registry) (pid : Nat)
    (tmo : Int) (p : proc.ProcState) (h : reg pid = some p) :
    (proc.Wait reg ⟨pid, tmo⟩ false).resp.exitCode = 124 ∧
    (proc.Wait reg ⟨pid, tmo⟩ false).resp.error = "timeout" ∧
    (proc.Wait reg ⟨pid, tmo⟩ false).resp.stdout = p.stdoutBuf ∧
    (proc.Wait reg ⟨pid, tmo⟩ false).resp.stderr = p.stderrBuf ∧
    (proc.Wait reg ⟨pid, tmo⟩ false).resp.truncated = (p.stdoutTrunc || p.stderrTrunc) ∧
    (proc.Wait reg ⟨pid, tmo⟩ false).regOut = reg ∧
    (proc.Wait reg ⟨pid, tmo⟩ false).regOut pid = some p ∧
    (proc.Kill reg ⟨pid, 0⟩ none).resp.killed = true ∧
    (proc.Wait reg ⟨pid, tmo⟩ true).resp.exitCode = p.exitCode ∧
    (proc.Wait reg ⟨pid, tmo⟩ true).regOut pid = none := by
  simp only [proc.Wait, proc.Kill, h]
  simp [proc.regRemove, h]

/-- Witness for C2 at a concrete one-entry registry. -/
theorem procWait_timeout_nondestructive_witness :
    (proc.Wait (fun n => if n = 5 then some ⟨[1], [2], false, true, 7, "w", false⟩ else none)
        ⟨5, 100⟩ false).resp.exitCode = 124 ∧
    (proc.Wait (fun n => if n = 5 then some ⟨[1], [2], false, true, 7, "w", false⟩ else none)
        ⟨5, 100⟩ false).resp.error = "timeout" ∧
    (proc.Wait (fun n => if n = 5 then some ⟨[1], [2], false, true, 7, "w", false⟩ else none)
        ⟨5, 100⟩ false).resp.stdout = [1] ∧
    (proc.Wait (fun n => if n = 5 then some ⟨[1], [2], false, true, 7, "w", false⟩ else none)
        ⟨5, 100⟩ false).resp.stderr = [2] ∧
    (proc.Wait (fun n => if n = 5 then some ⟨[1], [2], false, true, 7, "w", false⟩ else none)
        ⟨5, 100⟩ false).resp.truncated = (false || true) ∧
    (proc.Wait (fun n => if n = 5 then some ⟨[1], [2], false, true, 7, "w", false⟩ else none)
        ⟨5, 100⟩ false).regOut =
      (fun n => if n = 5 then some ⟨[1], [2], false, true, 7, "w", false⟩ else none) ∧
    (proc.Wait (fun n => if n = 5 then some ⟨[1], [2], false, true, 7, "w", false⟩ else none)
        ⟨5, 100⟩ false).regOut 5 = some ⟨[1], [2], false, true, 7, "w", false⟩ ∧
    (proc.Kill (fun n => if n = 5 then some ⟨[1], [2], false, true, 7, "w", false⟩ else none)
        ⟨5, 0⟩ none).resp.killed = true ∧
    (proc.Wait (fun n => if n = 5 then some ⟨[1], [2], false, true, 7, "w", false⟩ else none)
        ⟨5, 100⟩ true).resp.exitCode = 7 ∧
    (proc.Wait (fun n => if n = 5 then some ⟨[1], [2], false, true, 7, "w", false⟩ else none)
        ⟨5, 100⟩ true).regOut 5 = none :=
  procWait_timeout_nondestructive
    (fun n => if n = 5 then some ⟨[1], [2], false, true, 7, "w", false⟩ else none)
    5 100 ⟨[1], [2], false, true, 7, "w", false⟩ rfl

/-- Claim C5: kill on a tracked pid sends the requested signal — SIGTERM (15)
when the request carries no signal — to the negative pid, i.e. the whole
process group, reports success, and leaves the registry entry in place, so
the pid is still tracked and a subsequent wait is still needed to reap it. -/
theorem procKill_group_signal_keeps_entry (reg : proc.Registry) (pid : Nat)
    (sig : Int) (p : proc.ProcState) (h : reg pid = some p) :
    (proc.Kill reg ⟨pid, sig⟩ none).resp.killed = true ∧
    (proc.Kill reg ⟨pid, sig⟩ none).resp.error = "" ∧
    (proc.Kill reg ⟨pid, sig⟩ none).events =
      [{ target := -(pid : Int), signal := if sig ≠ 0 then sig else 15 }] ∧
    (proc.Kill reg ⟨pid, sig⟩ none).regOut = reg ∧
    (proc.Kill reg ⟨pid, sig⟩ none).regOut pid = some p := by
  have h1 : reg (proc.KillRequest.mk pid sig).pid = some p := h
  unfold proc.Kill
  rw [h1]
  exact ⟨rfl, rfl, rfl, rfl, h⟩

/-- Witness for C5: no signal supplied, so SIGTERM (15) goes to pid group -9. -/
theorem procKill_group_signal_keeps_entry_witness :
    (proc.Kill (fun n => if n = 9 then some ⟨[], [], false, false, 0, "", false⟩ else none)
        ⟨9, 0⟩ none).resp.killed = true ∧
    (proc.Kill (fun n => if n = 9 then some ⟨[], [], false, false, 0, "", false⟩ else none)
        ⟨9, 0⟩ none).resp.error = "" ∧
    (proc.Kill (fun n => if n = 9 then some ⟨[], [], false, false, 0, "", false⟩ else none)
        ⟨9, 0⟩ none).events =
      [{ target := -(9 : Int), signal := if (0 : Int) ≠ 0 then 0 else 15 }] ∧
    (proc.Kill (fun n => if n = 9 then some ⟨[], [], false, false, 0, "", false⟩ else none)
        ⟨9, 0⟩ none).regOut =
      (fun n => if n = 9 then some ⟨[], [], false, false, 0, "", false⟩ else none) ∧
    (proc.Kill (fun n => if n = 9 then some ⟨[], [], false, false, 0, "", false⟩ else none)
        ⟨9, 0⟩ none).regOut 9 = some ⟨[], [], false, false, 0, "", false⟩ :=
  procKill_group_signal_keeps_entry
    (fun n => if n = 9 then some ⟨[], [], false, false, 0, "", false⟩ else none)
    9 0 ⟨[], [], false, false, 0, "", false⟩ rfl

/-- Claim C6: addressed to a pid with no tracked entry, write_stdin, wait and
kill each return a structured "unknown pid" error (wait with exit code 1),
leave the registry unchanged and perform no side effect; all three are total
functions of the embedding, the counterpart of "never panics". -/
theorem proc_unknown_pid_structured_errors (reg : proc.Registry) (pid : Nat)
    (data : List Nat) (tmo sig : Int) (w : proc.WriteOutcome) (completes : Bool)
    (killErr : Option String) (h : reg pid = none) :
    (proc.Stdin reg ⟨pid, data⟩ w).resp.error = "unknown pid" ∧
    (proc.Stdin reg ⟨pid, data⟩ w).resp.bytesWritten = 0 ∧
    (proc.Stdin reg ⟨pid, data⟩ w).regOut = reg ∧
    (proc.Stdin reg ⟨pid, data⟩ w).sent = [] ∧
    (proc.Wait reg ⟨pid, tmo⟩ completes).resp.exitCode = 1 ∧
    (proc.Wait reg ⟨pid, tmo⟩ completes).resp.error = "unknown pid" ∧
    (proc.Wait reg ⟨pid, tmo⟩ completes).regOut = reg ∧
    (proc.Kill reg ⟨pid, sig⟩ killErr).resp.error = "unknown pid" ∧
    (proc.Kill reg ⟨pid, sig⟩ killErr).resp.killed = false ∧
    (proc.Kill reg ⟨pid, sig⟩ killErr).regOut = reg ∧
    (proc.Kill reg ⟨pid, sig⟩ killErr).events = [] := by
  simp only [proc.Stdin, proc.Wait, proc.Kill, h]
  simp

/-- Witness for C6 at the empty registry. -/
theorem proc_unknown_pid_structured_errors_witness :
    (proc.Stdin (fun _ => none) ⟨3, [1]⟩ .ok).resp.error = "unknown pid" ∧
    (proc.Stdin (fun _ => none) ⟨3, [1]⟩ .ok).resp.bytesWritten = 0 ∧
    (proc.Stdin (fun _ => none) ⟨3, [1]⟩ .ok).regOut = (fun _ => none) ∧
    (proc.Stdin (fun _ => none) ⟨3, [1]⟩ .ok).sent = [] ∧
    (proc.Wait (fun _ => none) ⟨3, 50⟩ true).resp.exitCode = 1 ∧
    (proc.Wait (fun _ => none) ⟨3, 50⟩ true).resp.error = "unknown pid" ∧
    (proc.Wait (fun _ => none) ⟨3, 50⟩ true).regOut = (fun _ => none) ∧
    (proc.Kill (fun _ => none) ⟨3, 9⟩ none).resp.error = "unknown pid" ∧
    (proc.Kill (fun _ => none) ⟨3, 9⟩ none).resp.killed = false ∧
    (proc.Kill (fun _ => none) ⟨3, 9⟩ none).regOut = (fun _ => none) ∧
    (proc.Kill (fun _ => none) ⟨3, 9⟩ none).events = [] :=
  proc_unknown_pid_structured_errors (fun _ => none) 3 [1] 50 9 .ok true none rfl

/-- Claim C7: for a tracked pid, write_stdin hands the child at most the
fixed stdin cap DefaultMaxStdin = 2^20 bytes — exactly the first 2^20 bytes
of the payload, the rest silently dropped — and on success reports
bytes_written = min(payload length, 2^20). -/
theorem procStdin_caps_payload (reg : proc.Registry) (pid : Nat)
    (data : List Nat) (p : proc.ProcState) (h : reg pid = some p) :
    proc.DefaultMaxStdin = 2 ^ 20 ∧
    (proc.Stdin reg ⟨pid, data⟩ .ok).sent = data.take (2 ^ 20) ∧
    (proc.Stdin reg ⟨pid, data⟩ .ok).resp.bytesWritten = min data.length (2 ^ 20) ∧
    (proc.Stdin reg ⟨pid, data⟩ .ok).resp.error = "" := by
  have hcap : proc.DefaultMaxStdin = 2 ^ 20 := by decide
  have h1 : reg (proc.StdinRequest.mk pid data).pid = some p := h
  unfold proc.Stdin
  rw [h1]
  have hp2 : (2 : Nat) ^ 20 = 1048576 := by norm_num
  have hc2 : proc.DefaultMaxStdin = 1048576 := by decide
  refine ⟨hcap, ?_, ?_, rfl⟩
  · show (if proc.DefaultMaxStdin < data.length then data.take proc.DefaultMaxStdin
      else data) = data.take (2 ^ 20)
    rw [hp2, hc2]
    by_cases hlen : 1048576 < data.length
    · rw [if_pos hlen]
    · rw [if_neg hlen, List.take_of_length_le (by omega)]
  · show (if proc.DefaultMaxStdin < data.length then data.take proc.DefaultMaxStdin
      else data).length = min data.length (2 ^ 20)
    rw [hp2, hc2]
    by_cases hlen : 1048576 < data.length
    · rw [if_pos hlen, List.length_take]
      omega
    · rw [if_neg hlen]
      omega

/-- Witness for C7 with a 3-byte payload: all 3 bytes are sent. -/
theorem procStdin_caps_payload_witness :
    proc.DefaultMaxStdin = 2 ^ 20 ∧
    (proc.Stdin (fun n => if n = 4 then some ⟨[], [], false, false, 0, "", false⟩ else none)
        ⟨4, [10, 20, 30]⟩ .ok).sent = [10, 20, 30].take (2 ^ 20) ∧
    (proc.Stdin (fun n => if n = 4 then some ⟨[], [], false, false, 0, "", false⟩ else none)
        ⟨4, [10, 20, 30]⟩ .ok).resp.bytesWritten = min [10, 20, 30].length (2 ^ 20) ∧
    (proc.Stdin (fun n => if n = 4 then some ⟨[], [], false, false, 0, "", false⟩ else none)
        ⟨4, [10, 20, 30]⟩ .ok).resp.error = "" :=
  procStdin_caps_payload
    (fun n => if n = 4 then some ⟨[], [], false, false, 0, "", false⟩ else none)
    4 [10, 20, 30] ⟨[], [], false, false, 0, "", false⟩ rfl

/-- Claim C10: a process spawned in TTY mode captures the combined
pseudo-terminal stream into the stdout buffer only — whatever the stream
delivers, the tracked state's stderr buffer is empty and its stderr
truncation flag stays false, so every wait response for it (timeout branch or
completion branch alike) carries an empty stderr and a combined truncation
flag equal to the stdout flag alone. -/
theorem procSpawn_tty_stderr_empty (reg : proc.Registry) (req : proc.SpawnRequest)
    (osPid : Nat) (clean : String → String) (ws : String)
    (ttyOut pipeOut pipeErr : List (List Nat)) (reapErr : shell.RunErr)
    (tmo : Int) (completes : Bool)
    (htty : req.tty = true) (hcmd : ¬req.cmd = "") :
    (proc.Spawn reg req none osPid clean ws ttyOut pipeOut pipeErr reapErr).resp.error = "" ∧
    (proc.Spawn reg req none osPid clean ws ttyOut pipeOut pipeErr reapErr).regOut osPid =
      some (proc.spawnProc clean ws req ttyOut pipeOut pipeErr reapErr) ∧
    (proc.spawnProc clean ws req ttyOut pipeOut pipeErr reapErr).stderrBuf = [] ∧
    (proc.spawnProc clean ws req ttyOut pipeOut pipeErr reapErr).stderrTrunc = false ∧
    (proc.Wait (proc.Spawn reg req none osPid clean ws ttyOut pipeOut pipeErr reapErr).regOut
      ⟨osPid, tmo⟩ completes).resp.stderr = [] ∧
    (proc.Wait (proc.Spawn reg req none osPid clean ws ttyOut pipeOut pipeErr reapErr).regOut
      ⟨osPid, tmo⟩ completes).resp.truncated =
      (proc.spawnProc clean ws req ttyOut pipeOut pipeErr reapErr).stdoutTrunc := by
  have hreg : (proc.Spawn reg req none osPid clean ws ttyOut pipeOut pipeErr reapErr).regOut
      osPid = some (proc.spawnProc clean ws req ttyOut pipeOut pipeErr reapErr) := by
    simp [proc.Spawn, proc.regInsert, hcmd]
  have hbuf : (proc.spawnProc clean ws req ttyOut pipeOut pipeErr reapErr).stderrBuf = [] := by
    simp [proc.spawnProc, htty]
  have htr : (proc.spawnProc clean ws req ttyOut pipeOut pipeErr reapErr).stderrTrunc = false := by
    simp [proc.spawnProc, htty]
  refine ⟨?_, hreg, hbuf, htr, ?_, ?_⟩
  · simp [proc.Spawn, hcmd]
  · cases completes <;> simp [proc.Wait, hreg, hbuf]
  · cases completes <;> simp [proc.Wait, hreg, htr]

/-- Witness for C10: a TTY spawn of "bash" whose pty delivers [1,2],[3];
the registered state and the wait response show no stderr. -/
theorem procSpawn_tty_stderr_empty_witness :
    (proc.Spawn (fun _ => none) ⟨"bash", [], "", [], true⟩ none 8 id "" [[1, 2], [3]] [] []
      .noErr).resp.error = "" ∧
    (proc.Spawn (fun _ => none) ⟨"bash", [], "", [], true⟩ none 8 id "" [[1, 2], [3]] [] []
      .noErr).regOut 8 =
      some (proc.spawnProc id "" ⟨"bash", [], "", [], true⟩ [[1, 2], [3]] [] [] .noErr) ∧
    (proc.spawnProc id "" ⟨"bash", [], "", [], true⟩ [[1, 2], [3]] [] [] .noErr).stderrBuf = [] ∧
    (proc.spawnProc id "" ⟨"bash", [], "", [], true⟩ [[1, 2], [3]] [] [] .noErr).stderrTrunc = false ∧
    (proc.Wait (proc.Spawn (fun _ => none) ⟨"bash", [], "", [], true⟩ none 8 id "" [[1, 2], [3]] [] []
        .noErr).regOut ⟨8, 30⟩ true).resp.stderr = [] ∧
    (proc.Wait (proc.Spawn (fun _ => none) ⟨"bash", [], "", [], true⟩ none 8 id "" [[1, 2], [3]] [] []
        .noErr).regOut ⟨8, 30⟩ true).resp.truncated =
      (proc.spawnProc id "" ⟨"bash", [], "", [], true⟩ [[1, 2], [3]] [] [] .noErr).stdoutTrunc :=
  procSpawn_tty_stderr_empty (fun _ => none) ⟨"bash", [], "", [], true⟩ 8 id ""
    [[1, 2], [3]] [] [] .noErr 30 true rfl (by decide)

namespace obs

/-- The exit-code/error view the middleware unmarshals out of a structured
tool result (`Middleware`, internal/obs, lines 138-152): every tool response
in this system serializes an `exit_code` and an `error` field. -/
structure ToolPayload where
  exitCode : Int
  error : String
deriving DecidableEq, Repr

/-- Per-call increments of the three counters `tool_calls_total`,
`tool_errors_total` and `tool_timeouts_total`. -/
structure MetricDelta where
  calls : Nat
  errorsTotal : Nat
  timeoutsTotal : Nat
deriving DecidableEq, Repr

/-- Outcome classification of the admission middleware (`Middleware`,
internal/obs, lines 124-152), after the slot and the rate token were
acquired: `calls` is always incremented before the wrapped handler runs;
a transport-level error counts as a timeout when the injected deadline
context expired and as a generic error otherwise; a call that returns
without transport error but whose structured payload carries a non-empty
error string or a non-zero exit code is re-classified as an error, and
additionally as a timeout when the embedded exit code is the sentinel 124.
`structured` is `none` when the result carries no structured content or it
does not unmarshal. -/
def classifyMetrics (errReturned : Bool) (ctxDeadline : Bool)
    (structured : Option ToolPayload) : MetricDelta :=
  if errReturned = true then
    if ctxDeadline = true then
      { calls := 1, errorsTotal := 0, timeoutsTotal := 1 }
    else
      { calls := 1, errorsTotal := 1, timeoutsTotal := 0 }
  else
    match structured with
    | some out =>
      if out.error ≠ "" ∨ out.exitCode ≠ 0 then
        { calls := 1, errorsTotal := 1
          timeoutsTotal := if out.exitCode = 124 then 1 else 0 }
      else
        { calls := 1, errorsTotal := 0, timeoutsTotal := 0 }
    | none => { calls := 1, errorsTotal := 0, timeoutsTotal := 0 }

end obs

/-- Claim C8: a tool call that returns without transport-level error but
whose structured payload carries a non-zero exit code or a non-empty error
string is classified as an error by the admission middleware's metrics, and
additionally as a timeout when the embedded exit code is the sentinel 124. -/
theorem middleware_payload_error_classification (dl : Bool) (out : obs.ToolPayload)
    (h : out.error ≠ "" ∨ out.exitCode ≠ 0) :
    (obs.classifyMetrics false dl (some out)).errorsTotal = 1 ∧
    (out.exitCode = 124 →
      (obs.classifyMetrics false dl (some out)).timeoutsTotal = 1) := by
  constructor
  · simp [obs.classifyMetrics, h]
  · intro h124
    simp [obs.classifyMetrics, h, h124]

/-- Witness for C8: a payload reporting exit code 124 with no transport error
is counted both as an error and as a timeout. -/
theorem middleware_payload_error_classification_witness :
    (obs.classifyMetrics false false (some ⟨124, ""⟩)).errorsTotal = 1 ∧
    ((124 : Int) = 124 →
      (obs.classifyMetrics false false (some ⟨124, ""⟩)).timeoutsTotal = 1) :=
  middleware_payload_error_classification false ⟨124, ""⟩ (Or.inr (by decide))
